import Mathlib

/-!
Shallow embedding of the authentication/session subsystem of the Matrix
vulnerability-assessment tracker (TypeScript/Express source).

Embedded source locations:
* `shared/schema.ts` — the `users` table row shape and role enum.
* `server/storage.ts` — `DatabaseStorage`: `getUser`, `getUserByUsername`,
  `getUsersByRole`, `upsertUser`, `validatePassword`.
* `server/localAuth.ts` — the passport local-strategy verify callback.
* the auth-session module (`authSession.ts`) — unified passport
  serialization/deserialization, `updateUserSession`, `getUserId`,
  `unifiedIsAuthenticated`.
* the federated-auth module (`replitAuth.ts`) — `upsertUser` (role
  assignment on federated login).
* the route module (`routes.ts`) — `handleDevLogin` and the response
  bodies of `POST /api/local-login`, `GET /api/auth/user`, `GET /api/users`,
  `POST /api/admin/create-user`.

Database rows are modelled as Lean structures (timestamps `createdAt` /
`updatedAt` are irrelevant to every claim and are omitted); the users table
is a list of rows; nullable columns and possibly-undefined JS properties are
`Option`; JS truthiness of strings/numbers is modelled explicitly (empty
string and zero are falsy).  External effects (bcrypt comparison, the OIDC
discovery call and the refresh-token grant) are parameters of the functions
that invoke them; network activity of the access-control gate is recorded in
its result so that "zero network calls" claims are statable.
-/

namespace MatrixAuth

/-- Role enum from shared/schema.ts: userRoleEnum = admin | pentester | client. -/
inductive Role
  | admin
  | pentester
  | client
deriving DecidableEq, Repr

/-- String rendering of a role, as stored in the database / JSON bodies. -/
def roleToString : Role → String
  | Role.admin => "admin"
  | Role.pentester => "pentester"
  | Role.client => "client"

/-- User row from shared/schema.ts `users` table.  `id` is the non-null
primary key; `email`, `username`, `password` (the bcrypt hash, present only
for local accounts), `firstName`, `lastName`, `profileImageUrl`,
`organization` are nullable columns; `role` defaults to client; `isActive`
defaults to true.  The `createdAt`/`updatedAt` timestamps are omitted. -/
structure User where
  id : String
  email : Option String := none
  username : Option String := none
  password : Option String := none
  firstName : Option String := none
  lastName : Option String := none
  profileImageUrl : Option String := none
  role : Role := Role.client
  organization : Option String := none
  isActive : Bool := true
deriving DecidableEq, Repr

/-- The users table, as a list of rows. -/
abbrev Storage := List User

/-- DatabaseStorage.getUser: select the row whose id matches. -/
def getUser (s : Storage) (id : String) : Option User :=
  List.find? (fun u => u.id == id) s

/-- DatabaseStorage.getUserByUsername: select the row whose username matches. -/
def getUserByUsername (s : Storage) (username : String) : Option User :=
  List.find? (fun u => u.username == some username) s

/-- DatabaseStorage.getUsersByRole: select the rows with the given role. -/
def getUsersByRole (s : Storage) (r : Role) : List User :=
  List.filter (fun u => u.role == r) s

/-- The UpsertUser payload (shared/schema.ts upsertUserSchema picks id,
email, firstName, lastName, profileImageUrl, role). -/
structure UpsertUser where
  id : String
  email : Option String := none
  firstName : Option String := none
  lastName : Option String := none
  profileImageUrl : Option String := none
  role : Role := Role.client
deriving DecidableEq, Repr

/-- Effect of `onConflictDoUpdate` on an existing row: exactly the payload
columns are overwritten (username, password, organization, isActive are not
part of the payload and stay). -/
def applyUpsert (u : User) (d : UpsertUser) : User :=
  { u with email := d.email, firstName := d.firstName, lastName := d.lastName,
           profileImageUrl := d.profileImageUrl, role := d.role }

/-- Row inserted when no conflict occurs: payload columns plus the column
defaults of shared/schema.ts. -/
def newUserFromUpsert (d : UpsertUser) : User :=
  { id := d.id, email := d.email, firstName := d.firstName, lastName := d.lastName,
    profileImageUrl := d.profileImageUrl, role := d.role }

/-- DatabaseStorage.upsertUser: insert the payload, updating the payload
columns in place when a row with the same id already exists. -/
def storageUpsertUser (s : Storage) (d : UpsertUser) : Storage :=
  if List.any s (fun u => u.id == d.id) then
    List.map (fun u => if u.id == d.id then applyUpsert u d else u) s
  else
    List.append s [newUserFromUpsert d]

theorem applyUpsert_id (u : User) (d : UpsertUser) : (applyUpsert u d).id = u.id := rfl

theorem getUser_eq_id {s : Storage} {i : String} {w : User}
    (h : getUser s i = some w) : w.id = i := by
  unfold getUser at h
  have := List.find?_some h
  simpa using this

theorem find?_upsert_map (d : UpsertUser) :
    ∀ (s : List User) (w : User), List.find? (fun u => u.id == d.id) s = some w →
      List.find? (fun u => u.id == d.id)
          (List.map (fun u => if u.id == d.id then applyUpsert u d else u) s)
        = some (applyUpsert w d) := by
  intro s
  induction s with
  | nil => intro w h; simp at h
  | cons a as ih =>
    intro w h
    cases ha : (a.id == d.id) with
    | true =>
      rw [List.find?_cons, ha] at h
      cases h
      have hb : ((applyUpsert a d).id == d.id) = true := by
        rw [applyUpsert_id]; exact ha
      simp only [List.map_cons, ha, if_true]
      rw [List.find?_cons, hb]
    | false =>
      rw [List.find?_cons, ha] at h
      simp only [List.map_cons, ha, Bool.false_eq_true, if_false]
      rw [List.find?_cons, ha]
      exact ih w h

theorem getUser_storageUpsert_existing {s : Storage} {d : UpsertUser} {i : String}
    {w : User} (hid : d.id = i) (h : getUser s i = some w) :
    getUser (storageUpsertUser s d) i = some (applyUpsert w d) := by
  subst hid
  unfold getUser at h
  have hw := List.find?_some h
  have hm := List.mem_of_find?_eq_some h
  have hany : List.any s (fun u => u.id == d.id) = true :=
    List.any_eq_true.mpr ⟨w, hm, hw⟩
  unfold storageUpsertUser getUser
  rw [hany]
  simp only [eq_self_iff_true, if_true]
  exact find?_upsert_map d s w h

theorem find?_append_of_none {p : User → Bool} :
    ∀ (s l : List User), List.find? p s = none →
      List.find? p (List.append s l) = List.find? p l := by
  intro s
  induction s with
  | nil => intro l _; rfl
  | cons a as ih =>
    intro l h
    cases ha : p a with
    | true => rw [List.find?_cons, ha] at h; cases h
    | false =>
      rw [List.find?_cons, ha] at h
      have happ : List.append (a :: as) l = a :: List.append as l := rfl
      rw [happ, List.find?_cons, ha]
      exact ih l h

theorem getUser_storageUpsert_new {s : Storage} {d : UpsertUser} {i : String}
    (hid : d.id = i) (h : getUser s i = none) :
    getUser (storageUpsertUser s d) i = some (newUserFromUpsert d) := by
  subst hid
  unfold getUser at h
  have hnone : ∀ u ∈ s, ¬ ((u.id == d.id) = true) := List.find?_eq_none.mp h
  have hany : List.any s (fun u => u.id == d.id) = false := by
    rw [List.any_eq_false]
    intro u hu
    exact hnone u hu
  unfold storageUpsertUser getUser
  rw [hany]
  simp only [Bool.false_eq_true, if_false]
  rw [find?_append_of_none s _ h]
  have hid : ((newUserFromUpsert d).id == d.id) = true := by
    simp [newUserFromUpsert]
  rw [List.find?_cons, hid]

/-- JS truthiness of a possibly-undefined string property: undefined and the
empty string are falsy. -/
def truthyStr : Option String → Bool
  | none => false
  | some s => s != ""

/-- JS truthiness of a possibly-undefined number property: undefined and 0
are falsy. -/
def truthyInt : Option Int → Bool
  | none => false
  | some n => n != 0

/-- OIDC claim set, as used by the auth modules: subject id plus the profile
fields read by upsertUser and the numeric expiry read by createOIDCUser and
updateUserSession. -/
structure Claims where
  sub : String
  email : Option String := none
  first_name : Option String := none
  last_name : Option String := none
  profile_image_url : Option String := none
  exp : Int := 0
deriving DecidableEq, Repr

/-- The dynamically shaped `req.user` object handled by the unified passport
layer.  A federated (OIDC) principal carries `claims`, `access_token`,
optionally `refresh_token`, and `expires_at`; a local principal is the
database User row itself (`dbRecord`), whose `id` property is what the
shape probes read.  Absent JS properties are `none`. -/
structure PUser where
  claims : Option Claims := none
  access_token : Option String := none
  refresh_token : Option String := none
  expires_at : Option Int := none
  dbRecord : Option User := none
deriving DecidableEq, Repr

/-- The `user.id` property of a `req.user` object: present only when the
object is a database row. -/
def PUser.idField (u : PUser) : Option String := Option.map User.id u.dbRecord

/-- The principal built from a database User row (local login / dev login). -/
def PUser.ofUser (u : User) : PUser := { dbRecord := some u }

/-- Tagged session record from authSession.ts: OIDCSessionData
(`type: oidc`) or LocalSessionData (`type: local`). -/
inductive AuthSessionData
  | oidcData (claims : Claims) (access_token : String)
      (refresh_token : Option String) (expires_at : Option Int)
  | localData (userId : String)
deriving DecidableEq, Repr

/-- Fallback branch of passport.serializeUser: `else if (user.id)` stores
only the user id, `else` fails with the unknown-user-type error. -/
def serializeAsLocal (u : PUser) : Except String AuthSessionData :=
  match u.dbRecord with
  | some r =>
    if r.id == "" then Except.error "Unknown user type for serialization"
    else Except.ok (AuthSessionData.localData r.id)
  | none => Except.error "Unknown user type for serialization"

/-- passport.serializeUser from setupUnifiedPassportSerialization: if the
object has truthy `claims` and `access_token` it is stored as an OIDC
record; otherwise, if it has a truthy `id`, as a local record; otherwise
serialization fails. -/
def serializeUser (u : PUser) : Except String AuthSessionData :=
  match u.claims, u.access_token with
  | some c, some tok =>
    if tok == "" then serializeAsLocal u
    else Except.ok (AuthSessionData.oidcData c tok u.refresh_token u.expires_at)
  | some _, none => serializeAsLocal u
  | none, _ => serializeAsLocal u

/-- passport.deserializeUser from setupUnifiedPassportSerialization: an OIDC
record is reconstructed from the stored fields alone; a local record is
resolved through storage.getUser and fails with the user-not-found error
when the id no longer resolves. -/
def deserializeUser (s : Storage) (d : AuthSessionData) : Except String PUser :=
  match d with
  | AuthSessionData.oidcData c tok rt exp =>
    Except.ok { claims := some c, access_token := some tok,
                refresh_token := rt, expires_at := exp, dbRecord := none }
  | AuthSessionData.localData userId =>
    match getUser s userId with
    | none => Except.error "User not found"
    | some user => Except.ok (PUser.ofUser user)

/-- Session-codec round trip: serialize then deserialize. -/
def roundTripPrincipal (s : Storage) (u : PUser) : Except String PUser :=
  match serializeUser u with
  | Except.error e => Except.error e
  | Except.ok d => deserializeUser s d

/-- getUserId from authSession.ts: prefer a truthy `claims.sub`, fall back
to a truthy `user.id`, otherwise null. -/
def getUserId (u : PUser) : Option String :=
  match u.claims with
  | some c =>
    if c.sub == "" then
      (match u.idField with
       | some i => if i == "" then none else some i
       | none => none)
    else some c.sub
  | none =>
    match u.idField with
    | some i => if i == "" then none else some i
    | none => none

/-- The token-endpoint response used by the refresh path: `claims()` (with
its `exp`), the new access token, and an optional new refresh token. -/
structure TokenResponse where
  claims : Claims
  access_token : String
  refresh_token : Option String := none
deriving DecidableEq, Repr

/-- updateUserSession from authSession.ts: in-place overwrite of `claims`,
`access_token`, `expires_at` (set to the exp of the new claim set), and of
`refresh_token` only when the response carries a truthy one. -/
def updateUserSession (u : PUser) (t : TokenResponse) : PUser :=
  { u with claims := some t.claims,
           access_token := some t.access_token,
           refresh_token :=
             if truthyStr t.refresh_token then t.refresh_token else u.refresh_token,
           expires_at := some t.claims.exp }

/-- Outcome of the provider during one request: whether the memoized OIDC
discovery succeeds, and what client.refreshTokenGrant yields for a given
refresh token (`none` models a thrown error: revoked token, network error). -/
structure ProviderEnv where
  config : Option Unit
  grant : String → Option TokenResponse

/-- Verdict of the unified authentication middleware. -/
inductive GateOutcome
  | next
  | reject (status : Nat) (message : String)
deriving DecidableEq, Repr

/-- Result of one run of unifiedIsAuthenticated: the verdict, the post-call
`req.user` (mutated only by a successful refresh), whether the memoized
getOidcConfig was invoked (the only possible discovery network call), and
the number of token-endpoint calls. -/
structure GateResult where
  outcome : GateOutcome
  user : Option PUser
  discoveryInvoked : Bool
  tokenCalls : Nat
deriving DecidableEq, Repr

/-- unifiedIsAuthenticated from authSession.ts, with network activity made
explicit.  The OIDC branch requires truthy `expires_at`, passes through
while `now <= expires_at`, rejects 401 when expired without a truthy
refresh token, and otherwise attempts the refresh exchange inside
try/catch; the local branch passes any object with a truthy `id`. -/
def unifiedIsAuthenticated (env : ProviderEnv) (now : Int)
    (isAuth : Bool) (user? : Option PUser) : GateResult :=
  match isAuth, user? with
  | false, _ => ⟨GateOutcome.reject 401 "Unauthorized", user?, false, 0⟩
  | true, none => ⟨GateOutcome.reject 401 "Unauthorized", none, false, 0⟩
  | true, some user =>
    if user.claims.isSome && truthyStr user.access_token then
      if !truthyInt user.expires_at then
        ⟨GateOutcome.reject 401 "Unauthorized", some user, false, 0⟩
      else if now ≤ user.expires_at.getD 0 then
        ⟨GateOutcome.next, some user, false, 0⟩
      else if !truthyStr user.refresh_token then
        ⟨GateOutcome.reject 401 "Unauthorized", some user, false, 0⟩
      else
        match env.config with
        | none => ⟨GateOutcome.reject 401 "Session expired", some user, true, 0⟩
        | some _ =>
          match env.grant (user.refresh_token.getD "") with
          | none => ⟨GateOutcome.reject 401 "Session expired", some user, true, 1⟩
          | some t => ⟨GateOutcome.next, some (updateUserSession user t), true, 1⟩
    else if truthyStr user.idField then
      ⟨GateOutcome.next, some user, false, 0⟩
    else
      ⟨GateOutcome.reject 401 "Unauthorized", some user, false, 0⟩

/-- One pass of the gate viewed as a transformer of the live `req.user`
object: the object after the call (unchanged except when a successful
refresh overwrote the token fields). -/
def gateStep (env : ProviderEnv) (now : Int) (u : PUser) : PUser :=
  match (unifiedIsAuthenticated env now true (some u)).user with
  | some v => v
  | none => u

/-- Result of the passport local-strategy verify callback: a user on
success, or a failure message (the `info.message` surfaced as the 401
body of POST /api/local-login). -/
inductive LocalAuthResult
  | success (user : User)
  | failure (message : String)
deriving DecidableEq, Repr

/-- DatabaseStorage.validatePassword: false when no hash is stored (JS
falsiness also rejects an empty-string hash), otherwise the bcrypt
comparison of the candidate password against the stored hash.  The bcrypt
library is external, so the comparison function is a parameter. -/
def validatePassword (compare : String → String → Bool)
    (user : User) (password : String) : Bool :=
  match user.password with
  | none => false
  | some hash => if hash == "" then false else compare password hash

/-- The local-strategy verify callback from server/localAuth.ts: look the
user up by username, check the password, then check the active flag.
Unknown username and wrong password produce the same message. -/
def localStrategyVerify (s : Storage) (compare : String → String → Bool)
    (username password : String) : LocalAuthResult :=
  match getUserByUsername s username with
  | none => LocalAuthResult.failure "Invalid username or password"
  | some user =>
    if !validatePassword compare user password then
      LocalAuthResult.failure "Invalid username or password"
    else if !user.isActive then
      LocalAuthResult.failure "Account is disabled"
    else
      LocalAuthResult.success user

/-- Deployment mode, read from NODE_ENV at request time. -/
inductive NodeEnv
  | development
  | production
deriving DecidableEq, Repr

/-- upsertUser from the federated-auth module: for a known subject id it
rewrites the mutable profile fields and writes back the stored role; for a
new subject id the first-ever user (no admin in storage) gets admin, and
otherwise the intended-role hint is honored only in development mode,
defaulting to client. -/
def upsertUserAuth (env : NodeEnv) (s : Storage) (claims : Claims)
    (intendedRole : Option Role) : Storage :=
  let userId := claims.sub
  match getUser s userId with
  | some existingUser =>
    storageUpsertUser s
      { id := userId, email := claims.email, firstName := claims.first_name,
        lastName := claims.last_name, profileImageUrl := claims.profile_image_url,
        role := existingUser.role }
  | none =>
    let isFirstUser := (getUsersByRole s Role.admin).length == 0
    let role : Role :=
      if isFirstUser then Role.admin
      else
        match intendedRole with
        | some r => if env == NodeEnv.development then r else Role.client
        | none => Role.client
    storageUpsertUser s
      { id := userId, email := claims.email, firstName := claims.first_name,
        lastName := claims.last_name, profileImageUrl := claims.profile_image_url,
        role := role }

/-- Role decision of handleDevLogin in routes.ts: an explicitly requested
valid role wins; only in its absence does the first-user rule apply, and
after that the fallback is client. -/
def devLoginRole (s : Storage) (requestedRole : Option Role) : Role :=
  let isFirstUser := (getUsersByRole s Role.admin).length == 0
  match requestedRole with
  | some r => r
  | none => if isFirstUser then Role.admin else Role.client

/-- handleDevLogin from routes.ts (user-record part): an existing user is
logged in as-is; otherwise a new user is created through storage.upsertUser
with the role chosen by devLoginRole.  Returns the storage after the call
and the user placed in the session. -/
def handleDevLogin (s : Storage) (userId : String) (requestedRole : Option Role) :
    Storage × User :=
  match getUser s userId with
  | some user => (s, user)
  | none =>
    let d : UpsertUser :=
      { id := userId, email := some (userId ++ "@dev.local"),
        firstName := some "Dev", lastName := some "User",
        profileImageUrl := none, role := devLoginRole s requestedRole }
    (storageUpsertUser s d, newUserFromUpsert d)

/-- JSON values, for stating what res.json serializes into response bodies. -/
inductive Json
  | str (s : String)
  | num (n : Int)
  | jbool (b : Bool)
  | null
  | arr (elems : List Json)
  | obj (fields : List (String × Json))

/-- A nullable string column as serialized by res.json (null, not dropped). -/
def optStrJson : Option String → Json
  | none => Json.null
  | some s => Json.str s

/-- res.json(user) on a row of the users table: every column is serialized,
including the stored password hash (timestamps omitted as before). -/
def userToJson (u : User) : Json :=
  Json.obj [("id", Json.str u.id), ("email", optStrJson u.email),
            ("username", optStrJson u.username),
            ("password", optStrJson u.password),
            ("firstName", optStrJson u.firstName),
            ("lastName", optStrJson u.lastName),
            ("profileImageUrl", optStrJson u.profileImageUrl),
            ("role", Json.str (roleToString u.role)),
            ("organization", optStrJson u.organization),
            ("isActive", Json.jbool u.isActive)]

/-- The spread `{ password: _, ...userWithoutPassword }` used by
POST /api/admin/create-user: the same object without the password key. -/
def userToJsonWithoutPassword (u : User) : Json :=
  Json.obj [("id", Json.str u.id), ("email", optStrJson u.email),
            ("username", optStrJson u.username),
            ("firstName", optStrJson u.firstName),
            ("lastName", optStrJson u.lastName),
            ("profileImageUrl", optStrJson u.profileImageUrl),
            ("role", Json.str (roleToString u.role)),
            ("organization", optStrJson u.organization),
            ("isActive", Json.jbool u.isActive)]

/-- Whether a JSON object has a top-level field with the given key. -/
def objHasField (j : Json) (key : String) : Bool :=
  match j with
  | Json.obj fields => List.any fields (fun p => p.1 == key)
  | _ => false

/-- The value of a top-level field of a JSON object, if any. -/
def fieldValue (j : Json) (key : String) : Option Json :=
  match j with
  | Json.obj fields => Option.map Prod.snd (List.find? (fun p => p.1 == key) fields)
  | _ => none

/-- 200 body of POST /api/local-login: a fixed five-field projection of the
authenticated user. -/
def localLoginSuccessBody (u : User) : Json :=
  Json.obj [("message", Json.str "Login successful"),
            ("user", Json.obj [("id", Json.str u.id),
                               ("username", optStrJson u.username),
                               ("role", Json.str (roleToString u.role)),
                               ("firstName", optStrJson u.firstName),
                               ("lastName", optStrJson u.lastName)])]

/-- GET /api/auth/user handler body: storage.getUser(userId) serialized
as-is on success, a 404 message object when the id does not resolve. -/
def authUserResponse (s : Storage) (userId : String) : Nat × Json :=
  match getUser s userId with
  | none => (404, Json.obj [("message", Json.str "User not found")])
  | some u => (200, userToJson u)

/-- GET /api/users body (admin caller): rows serialized as-is, either the
requested role bucket or admins ++ pentesters ++ clients. -/
def listUsersResponseBody (s : Storage) (roleFilter : Option Role) : Json :=
  match roleFilter with
  | some r => Json.arr (List.map userToJson (getUsersByRole s r))
  | none =>
    Json.arr (List.map userToJson
      (getUsersByRole s Role.admin ++ getUsersByRole s Role.pentester
        ++ getUsersByRole s Role.client))

/-- 201 body of POST /api/admin/create-user: message plus the new user with
the password key removed. -/
def createUserSuccessBody (newUser : User) : Json :=
  Json.obj [("message", Json.str "User created successfully"),
            ("user", userToJsonWithoutPassword newUser)]

/-- Concrete stand-in for the external bcrypt comparison in witnesses: the
candidate matches exactly when it equals the stored value. -/
def cmpW : String → String → Bool := fun p h => p == h

/-- Concrete active local user for witnesses. -/
def aliceW : User :=
  { id := "u1", username := some "alice", password := some "secret123",
    role := Role.pentester }

/-- Concrete federated-only user (no stored hash) for witnesses. -/
def bobW : User := { id := "u2", username := some "bob" }

/-- Claim C9: the credential validator succeeds exactly on (known username,
matching password, active account); unknown-username and wrong-password
failures carry the identical message, while a disabled account with
matching credentials fails with the distinct account-disabled message. -/
theorem c9_credential_validator (s : Storage) (compare : String → String → Bool)
    (username password : String) :
    (∀ u, getUserByUsername s username = some u →
        validatePassword compare u password = true → u.isActive = true →
        localStrategyVerify s compare username password = LocalAuthResult.success u)
    ∧ (getUserByUsername s username = none →
        localStrategyVerify s compare username password
          = LocalAuthResult.failure "Invalid username or password")
    ∧ (∀ u, getUserByUsername s username = some u →
        validatePassword compare u password = false →
        localStrategyVerify s compare username password
          = LocalAuthResult.failure "Invalid username or password")
    ∧ (∀ u, getUserByUsername s username = some u →
        validatePassword compare u password = true → u.isActive = false →
        localStrategyVerify s compare username password
          = LocalAuthResult.failure "Account is disabled")
    ∧ "Account is disabled" ≠ "Invalid username or password" := by
  refine ⟨?_, ?_, ?_, ?_, by decide⟩
  · intro u hu hv ha
    simp [localStrategyVerify, hu, hv, ha]
  · intro hnone
    simp [localStrategyVerify, hnone]
  · intro u hu hv
    simp [localStrategyVerify, hu, hv]
  · intro u hu hv ha
    simp [localStrategyVerify, hu, hv, ha]

/-- Witness for C9 at a concrete store: alice with the right password logs
in; an unknown username fails with the invalid-credentials message. -/
theorem c9_credential_validator_witness :
    localStrategyVerify [aliceW] cmpW "alice" "secret123" = LocalAuthResult.success aliceW
    ∧ localStrategyVerify [aliceW] cmpW "carol" "secret123"
        = LocalAuthResult.failure "Invalid username or password" :=
  ⟨(c9_credential_validator [aliceW] cmpW "alice" "secret123").1 aliceW
      (by decide) (by decide) (by decide),
   (c9_credential_validator [aliceW] cmpW "carol" "secret123").2.1 (by decide)⟩

/-- Claim C10: a user record without a stored password hash never validates
any candidate password, so that account cannot authenticate through the
local username/password path. -/
theorem c10_absent_hash_never_validates (compare : String → String → Bool)
    (password : String) (u : User) (h : u.password = none) :
    validatePassword compare u password = false
    ∧ ∀ (s : Storage) (username : String), getUserByUsername s username = some u →
        localStrategyVerify s compare username password
          = LocalAuthResult.failure "Invalid username or password" := by
  constructor
  · simp [validatePassword, h]
  · intro s username hu
    simp [localStrategyVerify, hu, validatePassword, h]

/-- Witness for C10: the federated-only user bob (no hash) fails password
validation and local login for an arbitrary candidate password. -/
theorem c10_absent_hash_never_validates_witness :
    validatePassword cmpW bobW "anypw" = false
    ∧ localStrategyVerify [bobW] cmpW "bob" "anypw"
        = LocalAuthResult.failure "Invalid username or password" :=
  ⟨(c10_absent_hash_never_validates cmpW "anypw" bobW rfl).1,
   (c10_absent_hash_never_validates cmpW "anypw" bobW rfl).2 [bobW] "bob" (by decide)⟩

/-- Claim C2: on federated re-login of a known subject id, the upsert
rewrites only the mutable profile fields and keeps the stored role, for
every intended-role hint; in particular a stored admin stays admin under a
client hint. -/
theorem c2_upsert_keeps_existing_role (env : NodeEnv) (s : Storage) (claims : Claims)
    (hint : Option Role) (existing : User)
    (h : getUser s claims.sub = some existing) :
    getUser (upsertUserAuth env s claims hint) claims.sub
      = some { existing with
               email := claims.email,
               firstName := claims.first_name,
               lastName := claims.last_name,
               profileImageUrl := claims.profile_image_url }
    ∧ Option.map User.role (getUser (upsertUserAuth env s claims hint) claims.sub)
        = some existing.role
    ∧ (∀ hint2, upsertUserAuth env s claims hint = upsertUserAuth env s claims hint2)
    ∧ (existing.role = Role.admin →
        Option.map User.role
            (getUser (upsertUserAuth env s claims (some Role.client)) claims.sub)
          = some Role.admin) := by
  have key : ∀ h2 : Option Role, getUser (upsertUserAuth env s claims h2) claims.sub
      = some { existing with
               email := claims.email,
               firstName := claims.first_name,
               lastName := claims.last_name,
               profileImageUrl := claims.profile_image_url } := by
    intro h2
    simp only [upsertUserAuth, h]
    exact getUser_storageUpsert_existing rfl h
  refine ⟨key hint, ?_, ?_, ?_⟩
  · rw [key hint]
    rfl
  · intro hint2
    simp only [upsertUserAuth, h]
  · intro hadm
    rw [key (some Role.client)]
    simp [hadm]

/-- Claim C4: the session codec round-trips the two sanctioned principal
shapes.  A federated principal (claims present, truthy access token) comes
back with identical claims (hence identical claims.sub), access token,
refresh token and expiry; a local principal whose user id resolves in
storage comes back as the stored row, whose id equals the original id. -/
theorem c4_roundtrip (s : Storage) (u : PUser) :
    (∀ c tok, u.claims = some c → u.access_token = some tok → tok ≠ "" →
      roundTripPrincipal s u
        = Except.ok { claims := some c, access_token := some tok,
                      refresh_token := u.refresh_token,
                      expires_at := u.expires_at, dbRecord := none })
    ∧ (∀ r w, u = PUser.ofUser r → r.id ≠ "" → getUser s r.id = some w →
      roundTripPrincipal s u = Except.ok (PUser.ofUser w) ∧ w.id = r.id) := by
  constructor
  · intro c tok hc ht hne
    simp [roundTripPrincipal, serializeUser, hc, ht, hne, deserializeUser]
  · intro r w hu hr hw
    subst hu
    refine ⟨?_, getUser_eq_id hw⟩
    simp [roundTripPrincipal, serializeUser, PUser.ofUser, serializeAsLocal, hr,
          deserializeUser, hw]

/-- Claim C5: when an expired federated principal with a refresh token hits
a failing refresh exchange (discovery failure or token-endpoint failure),
the gate rejects with 401 and the principal object is left exactly as it
was — no partial mutation of claims, access_token, refresh_token or
expires_at. -/
theorem c5_refresh_failure_no_mutation (env : ProviderEnv) (now : Int) (u : PUser)
    (c : Claims) (tok : String) (exp : Int) (rt : String)
    (hc : u.claims = some c) (ht : u.access_token = some tok) (htne : tok ≠ "")
    (he : u.expires_at = some exp) (hexp : exp ≠ 0) (hnow : exp < now)
    (hr : u.refresh_token = some rt) (hrne : rt ≠ "")
    (hfail : env.config = none ∨ env.grant rt = none) :
    (unifiedIsAuthenticated env now true (some u)).outcome
        = GateOutcome.reject 401 "Session expired"
    ∧ (unifiedIsAuthenticated env now true (some u)).user = some u := by
  have hlt : ¬ now ≤ exp := not_le.mpr hnow
  have hcl : u.claims.isSome = true := by rw [hc]; rfl
  have hat : truthyStr u.access_token = true := by rw [ht]; simp [truthyStr, htne]
  have hei : truthyInt (some exp) = true := by simp [truthyInt, hexp]
  have hrt : truthyStr (some rt) = true := by simp [truthyStr, hrne]
  rcases hfail with hcfg | hgrant
  · constructor <;>
      simp [unifiedIsAuthenticated, hcl, hat, hei, he, hr, hrt, hlt, hcfg]
  · cases hcfg : env.config with
    | none =>
      constructor <;>
        simp [unifiedIsAuthenticated, hcl, hat, hei, he, hr, hrt, hlt, hcfg]
    | some cfg =>
      constructor <;>
        simp [unifiedIsAuthenticated, hcl, hat, hei, he, hr, hrt, hlt, hcfg, hgrant]

/-- Claim C6: an expired federated principal without a truthy refresh token
is rejected with 401 and the gate performs no network activity at all:
getOidcConfig is never invoked and the token endpoint is never called. -/
theorem c6_expired_no_refresh_token (env : ProviderEnv) (now : Int) (u : PUser)
    (c : Claims) (tok : String) (exp : Int)
    (hc : u.claims = some c) (ht : u.access_token = some tok) (htne : tok ≠ "")
    (he : u.expires_at = some exp) (hexp : exp ≠ 0) (hnow : exp < now)
    (hnort : truthyStr u.refresh_token = false) :
    unifiedIsAuthenticated env now true (some u)
      = ⟨GateOutcome.reject 401 "Unauthorized", some u, false, 0⟩ := by
  have hlt : ¬ now ≤ exp := not_le.mpr hnow
  have hcl : u.claims.isSome = true := by rw [hc]; rfl
  have hat : truthyStr u.access_token = true := by rw [ht]; simp [truthyStr, htne]
  have hei : truthyInt u.expires_at = true := by rw [he]; simp [truthyInt, hexp]
  simp [unifiedIsAuthenticated, hcl, hat, hei, he, hlt, hnort]

/-- Claim C7: on a non-expired federated principal the gate is a pure
no-op: it passes the request through with zero discovery and zero
token-endpoint calls, leaves the principal unchanged, and iterating it any
number of times yields the same principal as one call. -/
theorem c7_fresh_is_noop (env : ProviderEnv) (now : Int) (u : PUser)
    (c : Claims) (tok : String) (exp : Int)
    (hc : u.claims = some c) (ht : u.access_token = some tok) (htne : tok ≠ "")
    (he : u.expires_at = some exp) (hexp : exp ≠ 0) (hnow : now ≤ exp) :
    unifiedIsAuthenticated env now true (some u)
      = ⟨GateOutcome.next, some u, false, 0⟩
    ∧ gateStep env now u = u
    ∧ ∀ n : Nat, (gateStep env now)^[n] u = u := by
  have hmain : unifiedIsAuthenticated env now true (some u)
      = ⟨GateOutcome.next, some u, false, 0⟩ := by
    have hcl : u.claims.isSome = true := by rw [hc]; rfl
    have hat : truthyStr u.access_token = true := by rw [ht]; simp [truthyStr, htne]
    have hei : truthyInt (some exp) = true := by simp [truthyInt, hexp]
    simp [unifiedIsAuthenticated, hcl, hat, hei, he, hnow]
  have hstep : gateStep env now u = u := by
    simp [gateStep, hmain]
  exact ⟨hmain, hstep, fun n => Function.iterate_fixed hstep n⟩

/-- Claim C8: a successful refresh exchange overwrites exactly claims,
access_token and expires_at (the latter to the exp of the new claim set),
keeps every other part of the principal (its database-record part in
particular), and replaces refresh_token only when the response carries a
truthy new one, keeping the stored one otherwise. -/
theorem c8_refresh_success_frame (env : ProviderEnv) (now : Int) (u : PUser)
    (c : Claims) (tok : String) (exp : Int) (rt : String) (t : TokenResponse)
    (hc : u.claims = some c) (ht : u.access_token = some tok) (htne : tok ≠ "")
    (he : u.expires_at = some exp) (hexp : exp ≠ 0) (hnow : exp < now)
    (hr : u.refresh_token = some rt) (hrne : rt ≠ "")
    (hcfg : env.config = some ()) (hgrant : env.grant rt = some t) :
    unifiedIsAuthenticated env now true (some u)
      = ⟨GateOutcome.next, some (updateUserSession u t), true, 1⟩
    ∧ (updateUserSession u t).claims = some t.claims
    ∧ (updateUserSession u t).access_token = some t.access_token
    ∧ (updateUserSession u t).expires_at = some t.claims.exp
    ∧ (updateUserSession u t).dbRecord = u.dbRecord
    ∧ (truthyStr t.refresh_token = true →
        (updateUserSession u t).refresh_token = t.refresh_token)
    ∧ (truthyStr t.refresh_token = false →
        (updateUserSession u t).refresh_token = u.refresh_token) := by
  have hlt : ¬ now ≤ exp := not_le.mpr hnow
  have hcl : u.claims.isSome = true := by rw [hc]; rfl
  have hat : truthyStr u.access_token = true := by rw [ht]; simp [truthyStr, htne]
  have hei : truthyInt (some exp) = true := by simp [truthyInt, hexp]
  have hrt : truthyStr (some rt) = true := by simp [truthyStr, hrne]
  refine ⟨?_, rfl, rfl, rfl, rfl, ?_, ?_⟩
  · simp [unifiedIsAuthenticated, hcl, hat, hei, he, hr, hrt, hlt, hcfg, hgrant]
  · intro htr
    simp [updateUserSession, htr]
  · intro htr
    simp [updateUserSession, htr]

/-- Concrete federated claim set for witnesses (expiry 100). -/
def claimsF : Claims := { sub := "sub-f", exp := 100 }

/-- Concrete federated principal with a refresh token. -/
def fedW : PUser :=
  { claims := some claimsF, access_token := some "tok",
    refresh_token := some "rt", expires_at := some 100 }

/-- Concrete federated principal without a refresh token. -/
def fedNoRtW : PUser :=
  { claims := some claimsF, access_token := some "tok", expires_at := some 100 }

/-- Concrete token-endpoint response for witnesses (no rotated refresh
token, new expiry 500). -/
def tokRespW : TokenResponse :=
  { claims := { sub := "sub-f", exp := 500 }, access_token := "tok2" }

/-- Provider in which discovery fails. -/
def envFailW : ProviderEnv := ⟨none, fun _ => none⟩

/-- Provider in which discovery succeeds and the grant succeeds exactly for
the stored refresh token. -/
def envOkW : ProviderEnv :=
  ⟨some (), fun r => if r == "rt" then some tokRespW else none⟩

/-- Witness for C4: concrete federated and local principals round-trip. -/
theorem c4_roundtrip_witness :
    roundTripPrincipal [] fedW = Except.ok fedW
    ∧ roundTripPrincipal [aliceW] (PUser.ofUser aliceW)
        = Except.ok (PUser.ofUser aliceW) :=
  ⟨(c4_roundtrip [] fedW).1 claimsF "tok" rfl rfl (by decide),
   ((c4_roundtrip [aliceW] (PUser.ofUser aliceW)).2 aliceW aliceW rfl
      (by decide) (by decide)).1⟩

/-- Witness for C5: at time 200 the expired concrete principal meets a
failing provider; the gate rejects 401 and the principal is untouched. -/
theorem c5_refresh_failure_no_mutation_witness :
    (unifiedIsAuthenticated envFailW 200 true (some fedW)).outcome
        = GateOutcome.reject 401 "Session expired"
    ∧ (unifiedIsAuthenticated envFailW 200 true (some fedW)).user = some fedW :=
  c5_refresh_failure_no_mutation envFailW 200 fedW claimsF "tok" 100 "rt"
    rfl rfl (by decide) rfl (by decide) (by decide) rfl (by decide) (Or.inl rfl)

/-- Witness for C6: at time 200 the expired no-refresh-token principal is
rejected with zero discovery and zero token calls. -/
theorem c6_expired_no_refresh_token_witness :
    unifiedIsAuthenticated envOkW 200 true (some fedNoRtW)
      = ⟨GateOutcome.reject 401 "Unauthorized", some fedNoRtW, false, 0⟩ :=
  c6_expired_no_refresh_token envOkW 200 fedNoRtW claimsF "tok" 100
    rfl rfl (by decide) rfl (by decide) (by decide) rfl

/-- Witness for C7: at time 50 the fresh concrete principal passes with no
network activity, and three successive gate passes leave it unchanged. -/
theorem c7_fresh_is_noop_witness :
    unifiedIsAuthenticated envOkW 50 true (some fedW)
      = ⟨GateOutcome.next, some fedW, false, 0⟩
    ∧ (gateStep envOkW 50)^[3] fedW = fedW :=
  ⟨(c7_fresh_is_noop envOkW 50 fedW claimsF "tok" 100
      rfl rfl (by decide) rfl (by decide) (by decide)).1,
   (c7_fresh_is_noop envOkW 50 fedW claimsF "tok" 100
      rfl rfl (by decide) rfl (by decide) (by decide)).2.2 3⟩

/-- Witness for C8: at time 200 the expired concrete principal refreshes
successfully; the response carries no new refresh token, so the stored one
is kept. -/
theorem c8_refresh_success_frame_witness :
    unifiedIsAuthenticated envOkW 200 true (some fedW)
      = ⟨GateOutcome.next, some (updateUserSession fedW tokRespW), true, 1⟩
    ∧ (updateUserSession fedW tokRespW).refresh_token = fedW.refresh_token :=
  ⟨(c8_refresh_success_frame envOkW 200 fedW claimsF "tok" 100 "rt" tokRespW
      rfl rfl (by decide) rfl (by decide) (by decide) rfl (by decide) rfl rfl).1,
   (c8_refresh_success_frame envOkW 200 fedW claimsF "tok" 100 "rt" tokRespW
      rfl rfl (by decide) rfl (by decide) (by decide) rfl (by decide) rfl rfl).2.2.2.2.2.2
     rfl⟩

/-- Witness for C2: a stored admin re-logging in with a client hint in
production keeps role admin. -/
theorem c2_upsert_keeps_existing_role_witness :
    Option.map User.role
        (getUser
          (upsertUserAuth NodeEnv.production
            [{ id := "sub1", email := some "old@example.com", role := Role.admin }]
            { sub := "sub1", email := some "new@example.com" }
            (some Role.client))
          "sub1")
      = some Role.admin :=
  (c2_upsert_keeps_existing_role NodeEnv.production
    [{ id := "sub1", email := some "old@example.com", role := Role.admin }]
    { sub := "sub1", email := some "new@example.com" }
    (some Role.client)
    { id := "sub1", email := some "old@example.com", role := Role.admin }
    (by decide)).2.2.2 rfl

/-- Claim C3, counterexample: on an empty user table (so no admin exists),
the dev-login creation path with a requested role of client creates and
persists the new user with role client, not admin — the explicit role hint
takes precedence over the first-user rule on this path. -/
theorem c3_first_user_counterexample :
    getUsersByRole ([] : Storage) Role.admin = []
    ∧ (handleDevLogin [] "dev-user" (some Role.client)).2.role = Role.client
    ∧ Option.map User.role
        (getUser (handleDevLogin [] "dev-user" (some Role.client)).1 "dev-user")
        = some Role.client
    ∧ Role.client ≠ Role.admin :=
  ⟨rfl, rfl, rfl, by decide⟩

/-- Claim C3 as amended: in the federated upsert path, a new user created
while no admin exists gets role admin regardless of the hint, and with no
hint a subsequent new user gets client; in the dev-login path an explicitly
requested valid role always wins, so the first-user-becomes-admin rule and
the client fallback apply only when no role was requested. -/
theorem c3_role_assignment_amended (s : Storage) :
    (∀ (env : NodeEnv) (claims : Claims) (hint : Option Role),
      getUser s claims.sub = none → getUsersByRole s Role.admin = [] →
        Option.map User.role (getUser (upsertUserAuth env s claims hint) claims.sub)
          = some Role.admin)
    ∧ (∀ (env : NodeEnv) (claims : Claims),
      getUser s claims.sub = none → getUsersByRole s Role.admin ≠ [] →
        Option.map User.role (getUser (upsertUserAuth env s claims none) claims.sub)
          = some Role.client)
    ∧ (∀ uid : String, getUser s uid = none → getUsersByRole s Role.admin = [] →
        (handleDevLogin s uid none).2.role = Role.admin)
    ∧ (∀ uid : String, getUser s uid = none → getUsersByRole s Role.admin ≠ [] →
        (handleDevLogin s uid none).2.role = Role.client)
    ∧ (∀ (uid : String) (r : Role), getUser s uid = none →
        (handleDevLogin s uid (some r)).2.role = r) := by
  refine ⟨?_, ?_, ?_, ?_, ?_⟩
  · intro env claims hint h hadm
    have hfirst : ((getUsersByRole s Role.admin).length == 0) = true := by
      rw [hadm]; rfl
    simp only [upsertUserAuth, h, hfirst, eq_self_iff_true, if_true]
    rw [getUser_storageUpsert_new rfl h]
    rfl
  · intro env claims h hadm
    have hfirst : ((getUsersByRole s Role.admin).length == 0) = false := by
      simp [List.length_eq_zero, hadm]
    simp only [upsertUserAuth, h, hfirst, Bool.false_eq_true, if_false]
    rw [getUser_storageUpsert_new rfl h]
    rfl
  · intro uid h hadm
    have hfirst : ((getUsersByRole s Role.admin).length == 0) = true := by
      rw [hadm]; rfl
    simp [handleDevLogin, h, devLoginRole, hfirst, newUserFromUpsert]
  · intro uid h hadm
    have hfirst : ((getUsersByRole s Role.admin).length == 0) = false := by
      simp [List.length_eq_zero, hadm]
    simp [handleDevLogin, h, devLoginRole, hfirst, newUserFromUpsert]
  · intro uid r h
    simp [handleDevLogin, h, devLoginRole, newUserFromUpsert]

/-- Witness for the amended C3: first federated user on an empty table gets
admin despite a client hint in production; a dev-login with no hint while
an admin exists gets client. -/
theorem c3_role_assignment_amended_witness :
    Option.map User.role
        (getUser (upsertUserAuth NodeEnv.production [] { sub := "s1" }
          (some Role.client)) "s1")
      = some Role.admin
    ∧ (handleDevLogin [{ id := "a1", role := Role.admin }] "dev-user" none).2.role
        = Role.client :=
  ⟨(c3_role_assignment_amended []).1 NodeEnv.production { sub := "s1" }
      (some Role.client) rfl rfl,
   (c3_role_assignment_amended [{ id := "a1", role := Role.admin }]).2.2.2.1
      "dev-user" (by decide) (by decide)⟩

/-- Concrete stored bcrypt hash for the C1 evaluation. -/
def aliceHashC1 : String := "bcrypt-2a-12-hash-of-alice-password"

/-- Concrete local account whose row carries a stored password hash. -/
def aliceC1 : User :=
  { id := "u-alice", email := some "alice@example.com", username := some "alice",
    password := some aliceHashC1, role := Role.pentester }

/-- Whether the nested user object of a response body exposes a password
field. -/
def nestedUserHasPassword (j : Json) : Bool :=
  match fieldValue j "user" with
  | some ju => objHasField ju "password"
  | none => false

/-- Claim C1 (violated by the code): for a user with a stored hash, the
GET /api/auth/user 200 body and the GET /api/users body serialize the raw
row and therefore contain the password field with the stored hash, while
the POST /api/local-login and POST /api/admin/create-user bodies do strip
it.  This evaluates the embedded handlers at the failing input. -/
theorem c1_password_hash_leak :
    (authUserResponse [aliceC1] "u-alice").1 = 200
    ∧ fieldValue (authUserResponse [aliceC1] "u-alice").2 "password"
        = some (Json.str aliceHashC1)
    ∧ listUsersResponseBody [aliceC1] none = Json.arr [userToJson aliceC1]
    ∧ fieldValue (userToJson aliceC1) "password" = some (Json.str aliceHashC1)
    ∧ nestedUserHasPassword (localLoginSuccessBody aliceC1) = false
    ∧ nestedUserHasPassword (createUserSuccessBody aliceC1) = false :=
  ⟨rfl, rfl, rfl, rfl, rfl, rfl⟩

end MatrixAuth
